import Mathlib

/-!
Verification of the Salesforce report tool (`src/tools/reports.ts`):
a shallow embedding of the result formatter (`formatReportResults`,
`formatGroupings`) and the request dispatcher (`handleManageReports`),
with theorems about validation, SOQL construction, option building,
error translation and the textual rendering of report result trees.

JavaScript conventions are modelled explicitly: absent object fields
are `Option`, `x ?? y` is `Option.getD`, truthiness of a string is
"present and non-empty", truthiness of a number is "non-zero", and
`a || b` on strings falls through on the empty string.
-/

/-- Truthiness of a possibly-absent string: present and non-empty. -/
def truthyOptStr (o : Option String) : Bool :=
  match o with
  | some s => s ≠ ""
  | none => false

/-- JavaScript `x || d` for a possibly-absent string `x`: keeps `x`
only when it is present and non-empty. -/
def jsOrStr (o : Option String) (d : String) : String :=
  match o with
  | some s => if s = "" then d else s
  | none => d

/-- JavaScript `s.repeat(n)`: `n` concatenated copies of `s`. -/
def strRepeat (s : String) : Nat → String
  | 0 => ""
  | n + 1 => s ++ strRepeat s n

/-- Map with an explicit running index, starting at `i`. -/
def mapIdxFrom (f : Nat → α → β) : Nat → List α → List β
  | _, [] => []
  | i, a :: rest => f i a :: mapIdxFrom f (i + 1) rest

/-- Lookup in an insertion-ordered string-keyed map (a JS object). -/
def assocLookup (m : List (String × β)) (k : String) : Option β :=
  match m with
  | [] => none
  | (k', v) :: rest => if k' = k then some v else assocLookup rest k

/-- Char-list version of "starts with". -/
def leadsWith : List Char → List Char → Bool
  | [], _ => true
  | _ :: _, [] => false
  | a :: as, b :: bs => a = b && leadsWith as bs

/-- Char-list version of JS `hay.includes(needle)`. -/
def hasInfixChars (needle : List Char) : List Char → Bool
  | [] => leadsWith needle []
  | c :: rest => leadsWith needle (c :: rest) || hasInfixChars needle rest

/-- JS `s.includes(sub)`. -/
def strIncludes (s sub : String) : Bool :=
  hasInfixChars sub.data s.data

/-- `needle` occurs inside `hay` as a contiguous substring. -/
def StrContains (needle hay : String) : Prop :=
  ∃ p q, hay = (p ++ needle) ++ q

/-- `suf` is a suffix of `s`. -/
def StrEndsWith (suf s : String) : Prop :=
  ∃ p, s = p ++ suf

/-- One runtime filter override: `{column, operator, value}`. -/
structure ReportFilter where
  column : String
  operator : String
  value : String
deriving DecidableEq

/-- A labelled value as returned by the analytics API: an aggregate
cell or a detail-row data cell, each with optional display label and
optional raw value (both already in string form). -/
structure ValueCell where
  label : Option String
  value : Option String
deriving DecidableEq

/-- One detail row: its ordered `dataCells`. -/
structure ReportRow where
  dataCells : List ValueCell
deriving DecidableEq

/-- One fact-map bucket: optional `aggregates` and optional `rows`. -/
structure FactBucket where
  aggregates : Option (List ValueCell)
  rows : Option (List ReportRow)
deriving DecidableEq

/-- The fact map: group-path key to bucket, insertion-ordered. -/
abbrev FactMap := List (String × FactBucket)

/-- Extended-metadata entry for a detail or aggregate column. -/
structure ColumnInfo where
  label : Option String
  dataType : Option String
deriving DecidableEq

/-- A result-tree grouping node: `label`, `value`, `key` (used for the
subtotal bucket lookup) and optional child groupings. -/
inductive Grouping : Type where
  | mk : String → String → String → Option (List Grouping) → Grouping

/-- The `label` of a grouping node. -/
def Grouping.label : Grouping → String
  | .mk l _ _ _ => l

/-- The `value` of a grouping node. -/
def Grouping.value : Grouping → String
  | .mk _ v _ _ => v

/-- The `key` of a grouping node. -/
def Grouping.key : Grouping → String
  | .mk _ _ k _ => k

/-- The child groupings of a grouping node. -/
def Grouping.subGroupings : Grouping → Option (List Grouping)
  | .mk _ _ _ g => g

/-- The `groupingsDown` / `groupingsAcross` holder object. -/
structure GroupingsHolder where
  groupings : Option (List Grouping)

/-- `reportExtendedMetadata`: the two column-info maps. -/
structure ExtMeta where
  detailColumnInfo : Option (List (String × ColumnInfo))
  aggregateColumnInfo : Option (List (String × ColumnInfo))

/-- `reportType` reference inside report metadata. -/
structure ReportTypeRef where
  type : Option String
deriving DecidableEq

/-- A grouping entry inside describe metadata. -/
structure DescribeGrouping where
  name : String
  sortOrder : String
  dateGranularity : Option String
deriving DecidableEq

/-- `reportMetadata` as consumed by the formatter and by describe. -/
structure ReportMetadata where
  name : String
  id : String
  reportFormat : String
  reportType : Option ReportTypeRef
  description : Option String
  detailColumns : Option (List String)
  groupingsDown : Option (List DescribeGrouping)
  groupingsAcross : Option (List DescribeGrouping)
  reportFilters : Option (List ReportFilter)

/-- A category from `reportTypeMetadata`. -/
structure Category where
  label : String
  name : String
deriving DecidableEq

/-- `reportTypeMetadata` inside a describe result. -/
structure ReportTypeMeta where
  categories : Option (List Category)

/-- The result of a describe call. -/
structure DescribeResult where
  reportMetadata : ReportMetadata
  reportExtendedMetadata : Option ExtMeta
  reportTypeMetadata : Option ReportTypeMeta

/-- A report execution result tree, as consumed by the formatter. -/
structure ResultTree where
  reportMetadata : Option ReportMetadata
  reportExtendedMetadata : Option ExtMeta
  factMap : Option FactMap
  groupingsDown : Option GroupingsHolder
  groupingsAcross : Option GroupingsHolder

/-! ## Result formatter (`formatReportResults` / `formatGroupings`) -/

/-- Metadata summary section: report name, format, active filters. -/
def metadataSummaryLines (t : ResultTree) : List String :=
  match t.reportMetadata with
  | some md =>
    ["Report: " ++ md.name, "Format: " ++ md.reportFormat]
    ++ (match md.reportFilters with
        | some fs =>
          if 0 < fs.length then
            ("Active Filters: " ++ toString fs.length)
              :: fs.map (fun f => "  - " ++ f.column ++ " " ++ f.operator ++ " " ++ f.value)
          else []
        | none => [])
    ++ [""]
  | none => []

/-- `result.reportExtendedMetadata?.detailColumnInfo || {}`. -/
def columnInfoOf (t : ResultTree) : List (String × ColumnInfo) :=
  (t.reportExtendedMetadata.bind ExtMeta.detailColumnInfo).getD []

/-- `result.reportExtendedMetadata?.aggregateColumnInfo || {}`. -/
def aggregateInfoOf (t : ResultTree) : List (String × ColumnInfo) :=
  (t.reportExtendedMetadata.bind ExtMeta.aggregateColumnInfo).getD []

/-- `holder?.groupings || []`. -/
def groupingListOf (h : Option GroupingsHolder) : List Grouping :=
  match h with
  | some g => g.groupings.getD []
  | none => []

/-- Row/column grouping count lines. -/
def groupingCountLines (t : ResultTree) : List String :=
  (if 0 < (groupingListOf t.groupingsDown).length then
    ["Row Groupings: " ++ toString (groupingListOf t.groupingsDown).length]
   else [])
  ++ (if 0 < (groupingListOf t.groupingsAcross).length then
    ["Column Groupings: " ++ toString (groupingListOf t.groupingsAcross).length]
   else [])

/-- `metadata?.detailColumns || []`. -/
def detailColumnsOf (md : Option ReportMetadata) : List String :=
  (md.bind ReportMetadata.detailColumns).getD []

/-- The label of the `i`-th aggregate line:
`aggKeys[i] ? (aggregateInfo[aggKeys[i]]?.label || aggKeys[i]) : "Aggregate <i>"`. -/
def aggLabelAt (info : List (String × ColumnInfo)) (i : Nat) : String :=
  match (info.map Prod.fst).get? i with
  | some k =>
    if k = "" then "Aggregate " ++ toString i
    else jsOrStr ((assocLookup info k).bind ColumnInfo.label) k
  | none => "Aggregate " ++ toString i

/-- Display value of an aggregate: `agg.label ?? agg.value ?? "N/A"`. -/
def displayValue (a : ValueCell) : String :=
  a.label.getD (a.value.getD "N/A")

/-- Display value of a detail cell: `cell.label ?? cell.value ?? ""`. -/
def cellText (c : ValueCell) : String :=
  c.label.getD (c.value.getD "")

/-- The aggregate lines of a bucket, each `pad ++ label ++ ": " ++ value`. -/
def aggregateLines (pad : String) (info : List (String × ColumnInfo))
    (aggs : List ValueCell) : List String :=
  mapIdxFrom (fun i a => pad ++ aggLabelAt info i ++ ": " ++ displayValue a) 0 aggs

/-- Grand totals section (bucket keyed `"T!T"`). -/
def grandTotalsLines (fm : FactMap) (info : List (String × ColumnInfo)) : List String :=
  match assocLookup fm "T!T" with
  | some gt =>
    match gt.aggregates with
    | some aggs =>
      if 0 < aggs.length then "" :: "Grand Totals:" :: aggregateLines "  " info aggs
      else []
    | none => []
  | none => []

/-- Table header rows for the ungrouped detail table:
labels via `columnInfo[col]?.label || col`. -/
def detailHeaderLines (t : ResultTree) : List String :=
  let headerLabels := (detailColumnsOf t.reportMetadata).map
    (fun col => jsOrStr ((assocLookup (columnInfoOf t) col).bind ColumnInfo.label) col)
  if 0 < headerLabels.length then
    ["  | " ++ String.intercalate " | " headerLabels ++ " |",
     "  | " ++ String.intercalate " | " (headerLabels.map (fun _ => "---")) ++ " |"]
  else []

/-- Detail rows section: only when `includeDetails` and the `"T!T"`
bucket carries a `rows` array. -/
def detailRowsLines (t : ResultTree) (fm : FactMap) (includeDetails : Bool) : List String :=
  if includeDetails then
    match assocLookup fm "T!T" with
    | some gt =>
      match gt.rows with
      | some rows =>
        ["", "Detail Rows (" ++ toString rows.length ++ "):"]
        ++ detailHeaderLines t
        ++ rows.map (fun row =>
            "  | " ++ String.intercalate " | " (row.dataCells.map cellText) ++ " |")
      | none => []
    | none => []
  else []

/-- Subtotal lines of one grouping node: bucket `"<key>!T"`, rendered
one level deeper than the header of the node. -/
def groupSubtotalLines (key : String) (fm : FactMap)
    (info : List (String × ColumnInfo)) (depth : Nat) : List String :=
  match assocLookup fm (key ++ "!T") with
  | some gd =>
    match gd.aggregates with
    | some aggs =>
      if 0 < aggs.length then
        aggregateLines (strRepeat "  " (depth + 1) ++ "  ") info aggs
      else []
    | none => []
  | none => []

/-- One `"<columnLabel>: <cellValue>"` pair inside a grouped detail row:
`columnInfo[colName]?.label || colName || "Col<idx>"`. -/
def groupCellText (colInfo : List (String × ColumnInfo)) (detailColumns : List String)
    (idx : Nat) (cell : ValueCell) : String :=
  let colName := detailColumns.get? idx
  jsOrStr ((colName.bind (fun c => assocLookup colInfo c)).bind ColumnInfo.label)
    (jsOrStr colName ("Col" ++ toString idx))
  ++ ": " ++ cellText cell

/-- Grouped detail rows of one grouping node. -/
def groupRowsLines (key : String) (fm : FactMap) (colInfo : List (String × ColumnInfo))
    (md : Option ReportMetadata) (includeDetails : Bool) (depth : Nat) : List String :=
  if includeDetails then
    match assocLookup fm (key ++ "!T") with
    | some gd =>
      match gd.rows with
      | some rows =>
        if 0 < rows.length then
          (strRepeat "  " (depth + 1) ++ "  Rows (" ++ toString rows.length ++ "):")
          :: rows.map (fun row =>
              strRepeat "  " (depth + 1) ++ "    "
              ++ String.intercalate ", "
                  (mapIdxFrom (fun idx cell => groupCellText colInfo (detailColumnsOf md) idx cell)
                    0 row.dataCells))
        else []
      | none => []
    | none => []
  else []

/-- Recursive grouped-results renderer (`formatGroupings`): header line
with indent `"  ".repeat(depth + 1)`, then subtotals, then grouped
detail rows, then child groupings at `depth + 1`, then the remaining
sibling groupings at the same depth. -/
def formatGroupings (fm : FactMap) (info colInfo : List (String × ColumnInfo))
    (md : Option ReportMetadata) (includeDetails : Bool) :
    List Grouping → Nat → List String
  | [], _ => []
  | Grouping.mk lab val key subs :: rest, depth =>
    (strRepeat "  " (depth + 1) ++ lab ++ " (" ++ val ++ "):")
      :: (groupSubtotalLines key fm info depth
        ++ groupRowsLines key fm colInfo md includeDetails depth
        ++ (match subs with
            | some sl =>
              if 0 < sl.length then
                formatGroupings fm info colInfo md includeDetails sl (depth + 1)
              else []
            | none => [])
        ++ formatGroupings fm info colInfo md includeDetails rest depth)

/-- Grouped results section: `"Grouped Results:"` then the recursion
starting at depth 0. -/
def groupedResultsLines (t : ResultTree) (fm : FactMap) (includeDetails : Bool) : List String :=
  if 0 < (groupingListOf t.groupingsDown).length then
    "" :: "Grouped Results:"
      :: formatGroupings fm (aggregateInfoOf t) (columnInfoOf t) t.reportMetadata includeDetails
          (groupingListOf t.groupingsDown) 0
  else []

/-- The output of the formatter as its ordered list of lines. -/
def formatReportResultsLines (t : ResultTree) (includeDetails : Bool) : List String :=
  metadataSummaryLines t
  ++ match t.factMap with
  | none => ["No data returned."]
  | some fm =>
    groupingCountLines t
    ++ grandTotalsLines fm (aggregateInfoOf t)
    ++ detailRowsLines t fm includeDetails
    ++ groupedResultsLines t fm includeDetails

/-- `formatReportResults`: the lines joined with newline. -/
def formatReportResults (t : ResultTree) (includeDetails : Bool) : String :=
  String.intercalate "\n" (formatReportResultsLines t includeDetails)

/-! ## Request dispatcher (`handleManageReports`) -/

/-- The six report operations. -/
inductive Operation : Type where
  | list
  | describe
  | execute
  | executeAsync
  | getInstances
  | getInstanceResults
deriving DecidableEq

/-- The operation name as it appears in messages (`${operation}`). -/
def opName : Operation → String
  | .list => "list"
  | .describe => "describe"
  | .execute => "execute"
  | .executeAsync => "executeAsync"
  | .getInstances => "getInstances"
  | .getInstanceResults => "getInstanceResults"

/-- The argument object of the tool (`ManageReportsArgs`). -/
structure ManageReportsArgs where
  operation : Operation
  reportId : Option String
  instanceId : Option String
  includeDetails : Option Bool
  filters : Option (List ReportFilter)
  queryFilter : Option String
  limit : Option Int

/-- One `{type, text}` content item of a tool response. -/
structure TextContent where
  type : String
  text : String
deriving DecidableEq

/-- The tool response envelope: `{content, isError}`. -/
structure ToolResponse where
  content : List TextContent
  isError : Bool
deriving DecidableEq

/-- A successful text response. -/
def okText (t : String) : ToolResponse :=
  { content := [{ type := "text", text := t }], isError := false }

/-- A failed text response. -/
def errText (t : String) : ToolResponse :=
  { content := [{ type := "text", text := t }], isError := true }

/-- Execution options passed to `execute` / `executeAsync`:
`{details?, metadata?: {reportMetadata: {reportFilters}}}`. -/
structure OptionsReportMetadata where
  reportFilters : List ReportFilter
deriving DecidableEq

/-- The metadata override wrapper inside execution options. -/
structure OptionsMetadata where
  reportMetadata : OptionsReportMetadata
deriving DecidableEq

/-- The execution options object. -/
structure ExecOptions where
  details : Option Bool
  metadata : Option OptionsMetadata
deriving DecidableEq

/-- A record returned by the SOQL `list` query over `Report`. -/
structure QueryRecord where
  Id : String
  Name : String
  Description : Option String
  DeveloperName : Option String
  Format : Option String
  FolderName : Option String
  LastRunDate : Option String
  CreatedDate : Option String
  LastModifiedDate : Option String

/-- The SOQL query result: its `records`. -/
structure QueryResult where
  records : List QueryRecord

/-- One recently-viewed report item from `analytics.reports()`. -/
structure RecentReport where
  id : String
  name : String
  url : Option String

/-- One async execution instance. -/
structure InstanceInfo where
  id : String
  status : String
  requestDate : Option String
  completionDate : Option String

/-- The remote collaborator: each method yields a value or throws a
fault carrying a message string. The connection is an immutable value;
no call mutates any saved report definition. -/
structure Connection where
  query : String → Except String QueryResult
  recentReports : Except String (List RecentReport)
  describe : String → Except String DescribeResult
  execute : String → ExecOptions → Except String ResultTree
  executeAsync : String → ExecOptions → Except String InstanceInfo
  instances : String → Except String (List InstanceInfo)
  retrieve : String → String → Except String ResultTree

/-- One remote collaborator call, as issued by the dispatcher. -/
inductive RemoteCall : Type where
  | query : String → RemoteCall
  | recentReports : RemoteCall
  | describe : String → RemoteCall
  | execute : String → ExecOptions → RemoteCall
  | executeAsync : String → ExecOptions → RemoteCall
  | instances : String → RemoteCall
  | retrieve : String → String → RemoteCall
deriving DecidableEq

/-- `if (limit) soql += " LIMIT " + limit; else soql += " LIMIT 200"`. -/
def limitClause (l : Option Int) : String :=
  match l with
  | some n => if n ≠ 0 then " LIMIT " ++ toString n else " LIMIT 200"
  | none => " LIMIT 200"

/-- The fixed SELECT prefix of the list query, up to and including `WHERE `. -/
def listQueryBase : String :=
  "SELECT Id, Name, Description, Format, DeveloperName, FolderName, LastRunDate, CreatedDate, LastModifiedDate FROM Report WHERE "

/-- Numbered block for one SOQL-listed report. -/
def renderReportBlock (i : Nat) (r : QueryRecord) : String :=
  String.intercalate "\n"
    ([toString (i + 1) ++ ". " ++ r.Name,
      "   ID: " ++ r.Id,
      "   Developer Name: " ++ jsOrStr r.DeveloperName "N/A",
      "   Format: " ++ jsOrStr r.Format "N/A",
      "   Folder: " ++ jsOrStr r.FolderName "N/A"]
    ++ (match r.Description with
        | some d => if d = "" then [] else ["   Description: " ++ d]
        | none => [])
    ++ (match r.LastRunDate with
        | some d => if d = "" then [] else ["   Last Run: " ++ d]
        | none => []))

/-- Rendering of the SOQL list result. -/
def renderReportList (result : QueryResult) : String :=
  "Found " ++ toString result.records.length ++ " reports:\n\n"
  ++ String.intercalate "\n\n" (mapIdxFrom renderReportBlock 0 result.records)

/-- Numbered block for one recently-viewed report. -/
def renderRecentBlock (i : Nat) (r : RecentReport) : String :=
  String.intercalate "\n"
    ([toString (i + 1) ++ ". " ++ r.name, "   ID: " ++ r.id]
    ++ (match r.url with
        | some u => if u = "" then [] else ["   URL: " ++ u]
        | none => []))

/-- Rendering of the recently-viewed report list. -/
def renderRecentReports (reports : List RecentReport) : String :=
  "Recently viewed reports (" ++ toString reports.length ++ "):\n\n"
  ++ String.intercalate "\n\n" (mapIdxFrom renderRecentBlock 0 reports)

/-- A possibly-absent string under JS template interpolation. -/
def jsShow (o : Option String) : String :=
  o.getD "undefined"

/-- Rendering of a describe result. -/
def renderDescribe (meta : DescribeResult) : String :=
  let rm := meta.reportMetadata
  let detailInfo := (meta.reportExtendedMetadata.bind ExtMeta.detailColumnInfo).getD []
  String.intercalate "\n"
    (["Report: " ++ rm.name,
      "ID: " ++ rm.id,
      "Format: " ++ rm.reportFormat,
      "Report Type: " ++ jsOrStr (rm.reportType.bind ReportTypeRef.type) "N/A",
      "Description: " ++ jsOrStr rm.description "N/A"]
    ++ (match rm.detailColumns with
        | some cols =>
          if 0 < cols.length then
            ["", "Detail Columns:"]
            ++ cols.map (fun col =>
                match assocLookup detailInfo col with
                | some info =>
                  "  - " ++ jsShow info.label ++ " (" ++ col ++ ") [" ++ jsShow info.dataType ++ "]"
                | none => "  - " ++ col)
          else []
        | none => [])
    ++ (match rm.groupingsDown with
        | some gs =>
          if 0 < gs.length then
            ["", "Row Groupings:"]
            ++ gs.map (fun g =>
                "  - " ++ g.name ++ " (sort: " ++ g.sortOrder ++ ", agg: "
                ++ jsOrStr g.dateGranularity "none" ++ ")")
          else []
        | none => [])
    ++ (match rm.groupingsAcross with
        | some gs =>
          if 0 < gs.length then
            ["", "Column Groupings:"]
            ++ gs.map (fun g =>
                "  - " ++ g.name ++ " (sort: " ++ g.sortOrder ++ ", agg: "
                ++ jsOrStr g.dateGranularity "none" ++ ")")
          else []
        | none => [])
    ++ (match rm.reportFilters with
        | some fs =>
          if 0 < fs.length then
            ["", "Filters:"]
            ++ fs.map (fun f => "  - " ++ f.column ++ " " ++ f.operator ++ " " ++ f.value)
          else []
        | none => [])
    ++ (match meta.reportExtendedMetadata.bind ExtMeta.aggregateColumnInfo with
        | some aggInfo =>
          if 0 < aggInfo.length then
            ["", "Aggregates:"]
            ++ aggInfo.map (fun kv =>
                "  - " ++ jsShow kv.2.label ++ " (" ++ kv.1 ++ ") [" ++ jsShow kv.2.dataType ++ "]")
          else []
        | none => [])
    ++ (match meta.reportTypeMetadata.bind ReportTypeMeta.categories with
        | some cats =>
          if 0 < cats.length then
            ["", "Available Categories/Objects:"]
            ++ cats.map (fun cat => "  - " ++ cat.label ++ " (" ++ cat.name ++ ")")
          else []
        | none => []))

/-- Numbered block for one async instance. -/
def renderInstanceBlock (i : Nat) (inst : InstanceInfo) : String :=
  String.intercalate "\n"
    [toString (i + 1) ++ ". Instance ID: " ++ inst.id,
     "   Status: " ++ inst.status,
     "   Request Date: " ++ jsOrStr inst.requestDate "N/A",
     "   Completion Date: " ++ jsOrStr inst.completionDate "N/A"]

/-- Rendering of the async-instances list. -/
def renderInstances (insts : List InstanceInfo) : String :=
  "Found " ++ toString insts.length ++ " report instance(s):\n\n"
  ++ String.intercalate "\n\n" (mapIdxFrom renderInstanceBlock 0 insts)

/-- Rendering of an `executeAsync` kickoff. -/
def renderAsyncStart (inst : InstanceInfo) : String :=
  "Report execution started asynchronously.\n\nInstance ID: " ++ inst.id
  ++ "\nStatus: " ++ inst.status
  ++ "\nRequest Date: " ++ jsOrStr inst.requestDate "N/A"
  ++ "\n\nUse operation \"getInstanceResults\" with this instanceId to retrieve results once complete."

/-- The execution options as built inline in the `execute` branch. -/
def buildExecuteOptions (includeDetails : Option Bool)
    (filters : Option (List ReportFilter)) : ExecOptions :=
  { details := if includeDetails = some true then some true else none,
    metadata :=
      match filters with
      | some fs =>
        if 0 < fs.length then
          some { reportMetadata :=
            { reportFilters := fs.map (fun f =>
                { column := f.column, operator := f.operator, value := f.value }) } }
        else none
      | none => none }

/-- The execution options as built inline in the `executeAsync` branch. -/
def buildExecuteAsyncOptions (includeDetails : Option Bool)
    (filters : Option (List ReportFilter)) : ExecOptions :=
  { details := if includeDetails = some true then some true else none,
    metadata :=
      match filters with
      | some fs =>
        if 0 < fs.length then
          some { reportMetadata :=
            { reportFilters := fs.map (fun f =>
                { column := f.column, operator := f.operator, value := f.value }) } }
        else none
      | none => none }

/-- The body of the switch: validation, the single remote call, the
per-operation success rendering. A thrown collaborator fault surfaces
as `Except.error`. The second component lists the remote calls issued. -/
def runOp (conn : Connection) (args : ManageReportsArgs) :
    Except String ToolResponse × List RemoteCall :=
  match args.operation with
  | Operation.list =>
    if truthyOptStr args.queryFilter then
      let soql := listQueryBase ++ args.queryFilter.getD "" ++ limitClause args.limit
      match conn.query soql with
      | Except.ok result => (Except.ok (okText (renderReportList result)), [RemoteCall.query soql])
      | Except.error e => (Except.error e, [RemoteCall.query soql])
    else
      match conn.recentReports with
      | Except.ok reports =>
        (Except.ok (okText (renderRecentReports reports)), [RemoteCall.recentReports])
      | Except.error e => (Except.error e, [RemoteCall.recentReports])
  | Operation.describe =>
    if truthyOptStr args.reportId then
      let rid := args.reportId.getD ""
      match conn.describe rid with
      | Except.ok meta => (Except.ok (okText (renderDescribe meta)), [RemoteCall.describe rid])
      | Except.error e => (Except.error e, [RemoteCall.describe rid])
    else
      (Except.ok (errText "reportId is required for describe operation"), [])
  | Operation.execute =>
    if truthyOptStr args.reportId then
      let rid := args.reportId.getD ""
      let options := buildExecuteOptions args.includeDetails args.filters
      match conn.execute rid options with
      | Except.ok result =>
        (Except.ok (okText (formatReportResults result (args.includeDetails.getD false))),
         [RemoteCall.execute rid options])
      | Except.error e => (Except.error e, [RemoteCall.execute rid options])
    else
      (Except.ok (errText "reportId is required for execute operation"), [])
  | Operation.executeAsync =>
    if truthyOptStr args.reportId then
      let rid := args.reportId.getD ""
      let options := buildExecuteAsyncOptions args.includeDetails args.filters
      match conn.executeAsync rid options with
      | Except.ok inst =>
        (Except.ok (okText (renderAsyncStart inst)), [RemoteCall.executeAsync rid options])
      | Except.error e => (Except.error e, [RemoteCall.executeAsync rid options])
    else
      (Except.ok (errText "reportId is required for executeAsync operation"), [])
  | Operation.getInstances =>
    if truthyOptStr args.reportId then
      let rid := args.reportId.getD ""
      match conn.instances rid with
      | Except.ok insts =>
        if insts.length = 0 then
          (Except.ok (okText "No async report instances found for this report."),
           [RemoteCall.instances rid])
        else
          (Except.ok (okText (renderInstances insts)), [RemoteCall.instances rid])
      | Except.error e => (Except.error e, [RemoteCall.instances rid])
    else
      (Except.ok (errText "reportId is required for getInstances operation"), [])
  | Operation.getInstanceResults =>
    if truthyOptStr args.reportId then
      if truthyOptStr args.instanceId then
        let rid := args.reportId.getD ""
        let iid := args.instanceId.getD ""
        match conn.retrieve rid iid with
        | Except.ok result =>
          (Except.ok (okText (formatReportResults result (args.includeDetails.getD false))),
           [RemoteCall.retrieve rid iid])
        | Except.error e => (Except.error e, [RemoteCall.retrieve rid iid])
      else
        (Except.ok (errText "instanceId is required for getInstanceResults operation"), [])
    else
      (Except.ok (errText "reportId is required for getInstanceResults operation"), [])

/-- The access-remediation hint appended for permission faults. -/
def accessHint : String :=
  "\n\nEnsure the user has:\n1. \"Run Reports\" permission\n2. Access to the report\x27s folder\n3. The report ID is correct"

/-- The id-validity hint appended for not-found faults. -/
def notFoundHint : String :=
  "\n\nCheck that the report ID is valid and starts with \"00O\"."

/-- Message-substring-based error enrichment of the catch block. -/
def enhanceError (msg : String) : String :=
  if strIncludes msg "INSUFFICIENT_ACCESS" || strIncludes msg "INVALID_CROSS_REFERENCE" then
    "Access error: " ++ msg ++ accessHint
  else if strIncludes msg "INVALID_ID_FIELD" || strIncludes msg "NOT_FOUND" then
    "Report not found: " ++ msg ++ notFoundHint
  else msg

/-- The catch block: enriched message prefixed with the operation. -/
def catchResponse (op : Operation) (msg : String) : ToolResponse :=
  errText ("Error in report " ++ opName op ++ ": " ++ enhanceError msg)

/-- `handleManageReports`: the switch wrapped in try/catch. -/
def handleManageReports (conn : Connection) (args : ManageReportsArgs) :
    ToolResponse × List RemoteCall :=
  match runOp conn args with
  | (Except.ok resp, calls) => (resp, calls)
  | (Except.error e, calls) => (catchResponse args.operation e, calls)

/-! ## Helper lemmas -/

theorem string_mk_append (a b : List Char) : String.mk a ++ String.mk b = String.mk (a ++ b) := rfl

theorem strRepeat_spaces (n : Nat) : strRepeat "  " n = String.mk (List.replicate (2 * n) ' ') := by
  induction n with
  | zero => rfl
  | succ k ih =>
    show "  " ++ strRepeat "  " k = _
    rw [ih]
    show String.mk [' ', ' '] ++ String.mk (List.replicate (2 * k) ' ') = _
    rw [string_mk_append]
    congr 1

theorem mapIdxFrom_length (f : Nat → α → β) (s : Nat) (l : List α) :
    (mapIdxFrom f s l).length = l.length := by
  induction l generalizing s with
  | nil => rfl
  | cons a rest ih => simp [mapIdxFrom, ih]

theorem mapIdxFrom_get? (f : Nat → α → β) (l : List α) :
    ∀ (s i : Nat), (mapIdxFrom f s l).get? i = (l.get? i).map (f (s + i)) := by
  induction l with
  | nil => intro s i; simp [mapIdxFrom]
  | cons a rest ih =>
    intro s i
    cases i with
    | zero => simp [mapIdxFrom]
    | succ j =>
      simp only [mapIdxFrom, List.get?_cons_succ, ih (s + 1) j]
      rw [show s + 1 + j = s + (j + 1) by omega]

theorem handle_calls (conn : Connection) (args : ManageReportsArgs) :
    (handleManageReports conn args).2 = (runOp conn args).2 := by
  cases hr : runOp conn args with
  | mk r cs => cases r <;> simp [handleManageReports, hr]

/-- Unfolding equation of `formatGroupings` at a cons cell. -/
theorem formatGroupings_cons
    (fm : FactMap) (info colInfo : List (String × ColumnInfo)) (md : Option ReportMetadata)
    (inc : Bool) (depth : Nat) (lab val key : String) (subs : Option (List Grouping))
    (rest : List Grouping) :
    formatGroupings fm info colInfo md inc (Grouping.mk lab val key subs :: rest) depth
      = (strRepeat "  " (depth + 1) ++ lab ++ " (" ++ val ++ "):")
        :: (groupSubtotalLines key fm info depth
          ++ groupRowsLines key fm colInfo md inc depth
          ++ (match subs with
              | some sl =>
                if 0 < sl.length then formatGroupings fm info colInfo md inc sl (depth + 1)
                else []
              | none => [])
          ++ formatGroupings fm info colInfo md inc rest depth) := by
  rw [formatGroupings.eq_def]

/-! ## Claim theorems -/

/-- C1: in the recursive grouping renderer, a node processed at depth
`d` emits its header `"<label> (<value>):"` prefixed with exactly
`2 * (d + 1)` spaces; its subtotal lines (bucket `"<key>!T"`) follow
the header immediately, before any grouped detail rows and before any
the header of any child group; children are rendered at depth `d + 1`,
whose prepended indent `2 * (d + 2)` strictly exceeds that of the
parent. -/
theorem grouping_header_indent_and_subtotal_position
    (fm : FactMap) (info colInfo : List (String × ColumnInfo)) (md : Option ReportMetadata)
    (inc : Bool) (depth : Nat) (lab val key : String) (subs : Option (List Grouping))
    (rest : List Grouping) :
    formatGroupings fm info colInfo md inc (Grouping.mk lab val key subs :: rest) depth
      = (String.mk (List.replicate (2 * (depth + 1)) ' ') ++ lab ++ " (" ++ val ++ "):")
        :: (groupSubtotalLines key fm info depth
          ++ groupRowsLines key fm colInfo md inc depth
          ++ (match subs with
              | some sl =>
                if 0 < sl.length then formatGroupings fm info colInfo md inc sl (depth + 1)
                else []
              | none => [])
          ++ formatGroupings fm info colInfo md inc rest depth)
    ∧ (String.mk (List.replicate (2 * (depth + 1)) ' ')).length = 2 * (depth + 1)
    ∧ 2 * (depth + 1 + 1) > 2 * (depth + 1) := by
  refine ⟨?_, ?_, by omega⟩
  · rw [formatGroupings_cons, strRepeat_spaces]
  · simp [String.length]

/-- C9: the execution-options objects built inline by the `execute`
branch and by the `executeAsync` branch coincide for every pair of
`includeDetails` and `filters` arguments. -/
theorem execute_and_executeAsync_build_equal_options
    (includeDetails : Option Bool) (filters : Option (List ReportFilter)) :
    buildExecuteOptions includeDetails filters
      = buildExecuteAsyncOptions includeDetails filters := rfl

/-- A result tree whose aggregate-column-info map has the single key
`""` and whose grand-total bucket holds one aggregate `{value: 42}`. -/
def c2Tree : ResultTree :=
  { reportMetadata := none,
    reportExtendedMetadata := some
      { detailColumnInfo := none,
        aggregateColumnInfo := some [("", { label := none, dataType := none })] },
    factMap := some [("T!T", { aggregates := some [{ label := none, value := some "42" }], rows := none })],
    groupingsDown := none,
    groupingsAcross := none }

/-- C2 counterexample: the aggregate-column-info map of `c2Tree` has the
entry `("", {})` at key-position 0, so by the claim the 0-th grand-total
line should get a label falling back to that key itself (the empty string),
giving the line `"  : 42"`; the code instead tests the key for JS
truthiness, an empty-string key fails it, and the emitted line is
`"  Aggregate 0: 42"`. -/
theorem grand_total_label_empty_key_counterexample :
    formatReportResultsLines c2Tree false = ["", "Grand Totals:", "  Aggregate 0: 42"]
    ∧ ("  : 42" ∈ formatReportResultsLines c2Tree false → False) := by
  constructor
  · decide
  · decide

/-- C2 (amended): whenever the fact map holds a bucket keyed `"T!T"`
with a non-empty aggregates sequence, the formatter emits a blank line,
a `"Grand Totals:"` header and one line per aggregate in place; the
`i`-th line is `"  <label>: <value>"` where the value is the display
label of the aggregate if present, else its raw value, else `"N/A"`,
and the label is the label of the aggregate-column-info entry at
key-position `i`, falling back to that key itself when the label of
the entry is absent or empty, and
to `"Aggregate <i>"` when there is no `i`-th key or the `i`-th key is
the empty string. -/
theorem grand_totals_rendering (t : ResultTree) (inc : Bool) (fm : FactMap)
    (gt : FactBucket) (aggs : List ValueCell) (h1 : t.factMap = some fm)
    (h2 : assocLookup fm "T!T" = some gt) (h3 : gt.aggregates = some aggs)
    (h4 : aggs ≠ []) :
    (∃ pre suf, formatReportResultsLines t inc
        = pre ++ ("" :: "Grand Totals:" :: aggregateLines "  " (aggregateInfoOf t) aggs) ++ suf)
    ∧ (aggregateLines "  " (aggregateInfoOf t) aggs).length = aggs.length
    ∧ (∀ i a, aggs.get? i = some a →
        (aggregateLines "  " (aggregateInfoOf t) aggs).get? i
          = some ("  " ++ aggLabelAt (aggregateInfoOf t) i ++ ": "
              ++ a.label.getD (a.value.getD "N/A")))
    ∧ (∀ i, ((aggregateInfoOf t).map Prod.fst).get? i = none →
        aggLabelAt (aggregateInfoOf t) i = "Aggregate " ++ toString i)
    ∧ (∀ i, ((aggregateInfoOf t).map Prod.fst).get? i = some "" →
        aggLabelAt (aggregateInfoOf t) i = "Aggregate " ++ toString i)
    ∧ (∀ i k, ((aggregateInfoOf t).map Prod.fst).get? i = some k → k ≠ "" →
        aggLabelAt (aggregateInfoOf t) i
          = (match (assocLookup (aggregateInfoOf t) k).bind ColumnInfo.label with
             | some l => if l = "" then k else l
             | none => k)) := by
  refine ⟨?_, mapIdxFrom_length _ _ _, ?_, ?_, ?_, ?_⟩
  · refine ⟨metadataSummaryLines t ++ groupingCountLines t,
      detailRowsLines t fm inc ++ groupedResultsLines t fm inc, ?_⟩
    have hlen : 0 < aggs.length := List.length_pos.mpr h4
    simp only [formatReportResultsLines, h1, grandTotalsLines, h2, h3, if_pos hlen,
      List.append_assoc, List.cons_append, List.nil_append]
  · intro i a ha
    rw [aggregateLines, mapIdxFrom_get? _ _ 0 i, ha]
    simp [displayValue]
  · intro i hk
    simp at hk
    simp [aggLabelAt, List.getElem?_eq_none hk]
  · intro i hk
    simp at hk
    obtain ⟨x, hx⟩ := hk
    simp [aggLabelAt, hx]
  · intro i k hk hne
    simp only [aggLabelAt, hk]
    rw [if_neg hne]
    cases (assocLookup (aggregateInfoOf t) k).bind ColumnInfo.label with
    | none => simp [jsOrStr]
    | some l => simp [jsOrStr]

/-- A result tree with empty aggregate-column-info and a grand-total
bucket holding the single aggregate `{value: 42}`. -/
def c2wTree : ResultTree :=
  { reportMetadata := none,
    reportExtendedMetadata := none,
    factMap := some [("T!T", { aggregates := some [{ label := none, value := some "42" }], rows := none })],
    groupingsDown := none,
    groupingsAcross := none }

/-- The fact map of `c2wTree`. -/
def c2wFm : FactMap :=
  [("T!T", { aggregates := some [{ label := none, value := some "42" }], rows := none })]

/-- The grand-total bucket of `c2wTree`. -/
def c2wBucket : FactBucket :=
  { aggregates := some [{ label := none, value := some "42" }], rows := none }

/-- C2 witness: instantiating the rendering theorem at `c2wTree` yields
the line `"  Aggregate 0: 42"` at position 0 of the grand-totals body. -/
theorem grand_totals_rendering_witness :
    (aggregateLines "  " (aggregateInfoOf c2wTree) [{ label := none, value := some "42" }]).get? 0
      = some "  Aggregate 0: 42" := by
  have h := grand_totals_rendering c2wTree false c2wFm c2wBucket
    [{ label := none, value := some "42" }] rfl rfl rfl (by decide)
  have hline := h.2.2.1 0 { label := none, value := some "42" } rfl
  rw [hline]
  decide

/-- C3: for any operation other than `list` invoked without a
`reportId`, and for `getInstanceResults` invoked without an
`instanceId`, the handler answers `isError = true` with a message
naming the missing field and the operation, and issues no remote
collaborator call. -/
theorem validation_before_remote_calls (conn : Connection) (args : ManageReportsArgs) :
    (args.operation ≠ Operation.list → args.reportId = none →
      (handleManageReports conn args).2 = []
      ∧ (handleManageReports conn args).1.isError = true
      ∧ (handleManageReports conn args).1.content
          = [{ type := "text",
               text := "reportId is required for " ++ opName args.operation ++ " operation" }])
    ∧ (args.operation = Operation.getInstanceResults → args.instanceId = none →
      (handleManageReports conn args).2 = []
      ∧ (handleManageReports conn args).1.isError = true
      ∧ (truthyOptStr args.reportId = true →
          (handleManageReports conn args).1.content
            = [{ type := "text",
                 text := "instanceId is required for getInstanceResults operation" }])
      ∧ (truthyOptStr args.reportId = false →
          (handleManageReports conn args).1.content
            = [{ type := "text",
                 text := "reportId is required for getInstanceResults operation" }])) := by
  obtain ⟨op, rid, iid, incl, fl, qf, lim⟩ := args
  cases op with
  | list => exact ⟨fun h => absurd rfl h, fun h => nomatch h⟩
  | describe =>
    exact ⟨fun _ hrid => by subst hrid; exact ⟨rfl, rfl, rfl⟩, fun h => nomatch h⟩
  | execute =>
    exact ⟨fun _ hrid => by subst hrid; exact ⟨rfl, rfl, rfl⟩, fun h => nomatch h⟩
  | executeAsync =>
    exact ⟨fun _ hrid => by subst hrid; exact ⟨rfl, rfl, rfl⟩, fun h => nomatch h⟩
  | getInstances =>
    exact ⟨fun _ hrid => by subst hrid; exact ⟨rfl, rfl, rfl⟩, fun h => nomatch h⟩
  | getInstanceResults =>
    refine ⟨fun _ hrid => by subst hrid; exact ⟨rfl, rfl, rfl⟩, fun _ hiid => ?_⟩
    subst hiid
    rcases rid with _ | s
    · refine ⟨rfl, rfl, fun htr => ?_, fun _ => rfl⟩
      simp [truthyOptStr] at htr
    · by_cases hs : s = ""
      · subst hs
        refine ⟨rfl, rfl, fun htr => ?_, fun _ => rfl⟩
        simp [truthyOptStr] at htr
      · refine ⟨?_, ?_, fun _ => ?_, fun hf => ?_⟩
        · simp [handleManageReports, runOp, truthyOptStr, hs]
        · simp [handleManageReports, runOp, truthyOptStr, hs, errText]
        · simp [handleManageReports, runOp, truthyOptStr, hs, errText]
        · simp [truthyOptStr, hs] at hf

/-- Arguments for the C3 witness: `getInstanceResults` with neither a
`reportId` nor an `instanceId`. -/
def c3wArgs : ManageReportsArgs :=
  { operation := Operation.getInstanceResults, reportId := none, instanceId := none,
    includeDetails := none, filters := none, queryFilter := none, limit := none }

/-- A collaborator whose every method throws, so any issued call would
be observable; used by witnesses. -/
def connStub : Connection :=
  { query := fun _ => Except.error "stub",
    recentReports := Except.error "stub",
    describe := fun _ => Except.error "stub",
    execute := fun _ _ => Except.error "stub",
    executeAsync := fun _ _ => Except.error "stub",
    instances := fun _ => Except.error "stub",
    retrieve := fun _ _ => Except.error "stub" }

/-- C3 witness: at `c3wArgs` both hypotheses are discharged and the
handler issues no call, answering the `reportId` validation error. -/
theorem validation_before_remote_calls_witness :
    (handleManageReports connStub c3wArgs).2 = []
    ∧ (handleManageReports connStub c3wArgs).1.isError = true
    ∧ (handleManageReports connStub c3wArgs).1.content
        = [{ type := "text",
             text := "reportId is required for " ++ opName c3wArgs.operation ++ " operation" }] :=
  (validation_before_remote_calls connStub c3wArgs).1 (by decide) rfl

/-- A grand-total bucket holding one detail row with one cell carrying
neither a label nor a value. -/
def c4Bucket : FactBucket :=
  { aggregates := none, rows := some [{ dataCells := [{ label := none, value := none }] }] }

/-- A result tree whose grand-total bucket is `c4Bucket`. -/
def c4Tree : ResultTree :=
  { reportMetadata := none,
    reportExtendedMetadata := none,
    factMap := some [("T!T", c4Bucket)],
    groupingsDown := none,
    groupingsAcross := none }

/-- C4 counterexample: with `includeDetails = true`, a detail cell with
neither label nor value renders as the empty string (`cell.label ??
cell.value ?? ""`), producing the row line `"  |  |"`; the claimed
`"N/A"` fallback would have produced `"  | N/A |"`, which never
appears. -/
theorem detail_cell_fallback_counterexample :
    formatReportResultsLines c4Tree true = ["", "Detail Rows (1):", "  |  |"]
    ∧ ("  | N/A |" ∈ formatReportResultsLines c4Tree true → False) := by
  constructor
  · decide
  · decide

/-- C4 (amended): when `includeDetails` is true and the grand-total
bucket carries rows, the rendered detail-table data rows appear in
place, one line per row, each cell resolved as the label of the cell
if present, else its value, else the empty string. -/
theorem detail_rows_cell_resolution (t : ResultTree) (fm : FactMap)
    (gt : FactBucket) (rows : List ReportRow) (h1 : t.factMap = some fm)
    (h2 : assocLookup fm "T!T" = some gt) (h3 : gt.rows = some rows) :
    ∃ pre suf, formatReportResultsLines t true
      = pre ++ ("" :: ("Detail Rows (" ++ toString rows.length ++ "):")
          :: (detailHeaderLines t
            ++ rows.map (fun row =>
                "  | " ++ String.intercalate " | "
                  (row.dataCells.map (fun c => c.label.getD (c.value.getD ""))) ++ " |")))
        ++ suf := by
  refine ⟨metadataSummaryLines t ++ groupingCountLines t ++ grandTotalsLines fm (aggregateInfoOf t),
    groupedResultsLines t fm true, ?_⟩
  simp only [formatReportResultsLines, detailRowsLines, h1, h2, h3, if_pos,
    List.append_assoc, List.cons_append, List.nil_append]
  rfl

/-- Detail rows with the cells `{label: "X", value: "Y"}`,
`{value: "Y"}` and `{}`. -/
def c4wRows : List ReportRow :=
  [{ dataCells := [{ label := some "X", value := some "Y" }, { label := none, value := some "Y" }, { label := none, value := none }] }]

/-- The grand-total bucket holding `c4wRows`. -/
def c4wBucket : FactBucket :=
  { aggregates := none, rows := some c4wRows }

/-- The fact map holding `c4wBucket` under `"T!T"`. -/
def c4wFm : FactMap :=
  [("T!T", c4wBucket)]

/-- A result tree whose grand-total bucket is `c4wBucket`. -/
def c4wTree : ResultTree :=
  { reportMetadata := none,
    reportExtendedMetadata := none,
    factMap := some c4wFm,
    groupingsDown := none,
    groupingsAcross := none }

/-- C4 witness: the resolution theorem applied to `c4wTree`, whose
single row renders label-first, then value, then empty. -/
theorem detail_rows_cell_resolution_witness :
    ∃ pre suf, formatReportResultsLines c4wTree true
      = pre ++ ("" :: ("Detail Rows (" ++ toString c4wRows.length ++ "):")
          :: (detailHeaderLines c4wTree
            ++ c4wRows.map (fun row =>
                "  | " ++ String.intercalate " | "
                  (row.dataCells.map (fun c => c.label.getD (c.value.getD ""))) ++ " |")))
        ++ suf :=
  detail_rows_cell_resolution c4wTree c4wFm c4wBucket c4wRows rfl rfl rfl

/-- The `list` branch with a truthy `queryFilter` issues exactly one
`query` call carrying the built SOQL string. -/
theorem list_query_call (conn : Connection) (args : ManageReportsArgs) (qf : String)
    (h1 : args.operation = Operation.list) (h2 : args.queryFilter = some qf) (h3 : qf ≠ "") :
    (handleManageReports conn args).2
      = [RemoteCall.query (listQueryBase ++ qf ++ limitClause args.limit)] := by
  rw [handle_calls]
  obtain ⟨op, rid, iid, incl, fl, qf0, lim⟩ := args
  cases h1
  cases h2
  have ht : truthyOptStr (some qf) = true := by simp [truthyOptStr, h3]
  simp only [runOp, ht, if_true, Option.getD_some]
  cases hq : conn.query (listQueryBase ++ qf ++ limitClause lim) <;> simp [hq]

/-- C5: a `list` request with a (truthy) `queryFilter` passes the query
collaborator a SOQL string containing `"WHERE <queryFilter>"`; with no
`limit` it ends with `"LIMIT 200"`, and with `limit = 50` it ends with
`"LIMIT 50"`. -/
theorem list_soql_where_and_limit (conn : Connection) (args : ManageReportsArgs) (qf : String)
    (h1 : args.operation = Operation.list) (h2 : args.queryFilter = some qf) (h3 : qf ≠ "") :
    (handleManageReports conn args).2
      = [RemoteCall.query (listQueryBase ++ qf ++ limitClause args.limit)]
    ∧ StrContains ("WHERE " ++ qf) (listQueryBase ++ qf ++ limitClause args.limit)
    ∧ (args.limit = none →
        StrEndsWith "LIMIT 200" (listQueryBase ++ qf ++ limitClause args.limit))
    ∧ (args.limit = some 50 →
        StrEndsWith "LIMIT 50" (listQueryBase ++ qf ++ limitClause args.limit)) := by
  refine ⟨list_query_call conn args qf h1 h2 h3, ?_, ?_, ?_⟩
  · refine ⟨"SELECT Id, Name, Description, Format, DeveloperName, FolderName, LastRunDate, CreatedDate, LastModifiedDate FROM Report ",
      limitClause args.limit, ?_⟩
    rw [show listQueryBase
        = "SELECT Id, Name, Description, Format, DeveloperName, FolderName, LastRunDate, CreatedDate, LastModifiedDate FROM Report "
          ++ "WHERE " by decide,
      ← String.append_assoc
        "SELECT Id, Name, Description, Format, DeveloperName, FolderName, LastRunDate, CreatedDate, LastModifiedDate FROM Report "
        "WHERE " qf]
  · intro h
    rw [h]
    refine ⟨(listQueryBase ++ qf) ++ " ", ?_⟩
    rw [show limitClause none = " " ++ "LIMIT 200" by decide, ← String.append_assoc]
  · intro h
    rw [h]
    refine ⟨(listQueryBase ++ qf) ++ " ", ?_⟩
    rw [show limitClause (some 50) = " " ++ "LIMIT 50" by decide, ← String.append_assoc]

/-- Arguments for the C5 witness: `list` with a query filter and an
explicit `limit = 50`. -/
def c5wArgs : ManageReportsArgs :=
  { operation := Operation.list, reportId := none, instanceId := none,
    includeDetails := none, filters := none, queryFilter := some "Format = MATRIX",
    limit := some 50 }

/-- C5 witness: the SOQL theorem applied at `c5wArgs`. -/
theorem list_soql_where_and_limit_witness :
    (handleManageReports connStub c5wArgs).2
      = [RemoteCall.query (listQueryBase ++ "Format = MATRIX" ++ limitClause c5wArgs.limit)]
    ∧ StrEndsWith "LIMIT 50" (listQueryBase ++ "Format = MATRIX" ++ limitClause c5wArgs.limit) :=
  ⟨(list_soql_where_and_limit connStub c5wArgs "Format = MATRIX" rfl rfl (by decide)).1,
   (list_soql_where_and_limit connStub c5wArgs "Format = MATRIX" rfl rfl (by decide)).2.2.2 rfl⟩

/-- C10: a `list` request with a (truthy) `queryFilter` and an explicit
`limit = 0` generates SOQL ending with `"LIMIT 200"`, not `"LIMIT 0"`:
the dispatcher tests the JS truthiness of the limit, so a zero limit is
treated as if the limit were absent. -/
theorem list_zero_limit_soql (conn : Connection) (args : ManageReportsArgs) (qf : String)
    (h1 : args.operation = Operation.list) (h2 : args.queryFilter = some qf) (h3 : qf ≠ "")
    (h4 : args.limit = some 0) :
    (handleManageReports conn args).2
      = [RemoteCall.query (listQueryBase ++ qf ++ limitClause args.limit)]
    ∧ StrEndsWith "LIMIT 200" (listQueryBase ++ qf ++ limitClause args.limit)
    ∧ ¬ StrEndsWith "LIMIT 0" (listQueryBase ++ qf ++ limitClause args.limit) := by
  refine ⟨list_query_call conn args qf h1 h2 h3, ?_, ?_⟩
  · rw [h4]
    refine ⟨(listQueryBase ++ qf) ++ " ", ?_⟩
    rw [show limitClause (some 0) = " " ++ "LIMIT 200" by decide, ← String.append_assoc]
  · rw [h4]
    rintro ⟨p, hp⟩
    rw [show limitClause (some 0) = " LIMIT 200" by decide] at hp
    have hd := congrArg String.data hp
    simp only [String.data_append] at hd
    have hr := congrArg List.reverse hd
    simp only [List.reverse_append] at hr
    rw [show (" LIMIT 200" : String).data.reverse = ['0', '0', '2', ' ', 'T', 'I', 'M', 'I', 'L', ' '] by decide,
      show ("LIMIT 0" : String).data.reverse = ['0', ' ', 'T', 'I', 'M', 'I', 'L'] by decide] at hr
    simp only [List.cons_append] at hr
    injection hr with ha hr2
    injection hr2 with hb _
    exact absurd hb (by decide)

/-- Arguments for the C10 witness: `list` with a query filter and an
explicit `limit = 0`. -/
def c10wArgs : ManageReportsArgs :=
  { operation := Operation.list, reportId := none, instanceId := none,
    includeDetails := none, filters := none, queryFilter := some "Format = MATRIX",
    limit := some 0 }

/-- C10 witness: the zero-limit theorem applied at `c10wArgs`. -/
theorem list_zero_limit_soql_witness :
    StrEndsWith "LIMIT 200" (listQueryBase ++ "Format = MATRIX" ++ limitClause c10wArgs.limit) :=
  (list_zero_limit_soql connStub c10wArgs "Format = MATRIX" rfl rfl (by decide) rfl).2.1

/-- C6: an `execute` request with a non-empty `filters` sequence issues
exactly one `execute` call whose options carry
`metadata.reportMetadata.reportFilters` equal to the `(column,
operator, value)` triples of the given filters, in order, and nothing
else; no
other collaborator call is issued, so the saved report definition
(held by the collaborator, an immutable value here) is never touched. -/
theorem execute_filter_override (conn : Connection) (args : ManageReportsArgs) (rid : String)
    (fs : List ReportFilter) (h1 : args.operation = Operation.execute)
    (h2 : args.reportId = some rid) (h3 : rid ≠ "") (h4 : args.filters = some fs)
    (h5 : fs ≠ []) :
    (handleManageReports conn args).2
      = [RemoteCall.execute rid (buildExecuteOptions args.includeDetails args.filters)]
    ∧ (buildExecuteOptions args.includeDetails args.filters).metadata
        = some { reportMetadata := { reportFilters := fs } } := by
  constructor
  · rw [handle_calls]
    obtain ⟨op, rid0, iid, incl, fl, qf, lim⟩ := args
    cases h1
    cases h2
    cases h4
    have ht : truthyOptStr (some rid) = true := by simp [truthyOptStr, h3]
    simp only [runOp, ht, if_true, Option.getD_some]
    cases hq : conn.execute rid (buildExecuteOptions incl (some fs)) <;> simp [hq]
  · rw [h4]
    simp only [buildExecuteOptions, if_pos (List.length_pos.mpr h5)]
    have hmap : fs.map (fun f : ReportFilter =>
        ({ column := f.column, operator := f.operator, value := f.value } : ReportFilter)) = fs := by
      have hid : (fun f : ReportFilter =>
          ({ column := f.column, operator := f.operator, value := f.value } : ReportFilter)) = id :=
        funext fun f => by cases f; rfl
      rw [hid, List.map_id]
    rw [hmap]

/-- The filter override of the C6 witness. -/
def c6wFilters : List ReportFilter :=
  [{ column := "AMOUNT", operator := "greaterThan", value := "10000" }]

/-- Arguments for the C6 witness: `execute` with one filter override. -/
def c6wArgs : ManageReportsArgs :=
  { operation := Operation.execute, reportId := some "00O000000000001", instanceId := none,
    includeDetails := none, filters := some c6wFilters, queryFilter := none, limit := none }

/-- C6 witness: the filter-override theorem applied at `c6wArgs`. -/
theorem execute_filter_override_witness :
    (handleManageReports connStub c6wArgs).2
      = [RemoteCall.execute "00O000000000001"
          (buildExecuteOptions c6wArgs.includeDetails c6wArgs.filters)]
    ∧ (buildExecuteOptions c6wArgs.includeDetails c6wArgs.filters).metadata
        = some { reportMetadata := { reportFilters := c6wFilters } } :=
  execute_filter_override connStub c6wArgs "00O000000000001" c6wFilters rfl rfl (by decide)
    rfl (by decide)

/-- C7: any fault surfacing from the switch body yields an error
response whose text is the operation name followed by the enriched
message; the enriched message always contains the original one, gains
the access-remediation hint on `INSUFFICIENT_ACCESS` or
`INVALID_CROSS_REFERENCE`, gains the id-validity hint on
`INVALID_ID_FIELD` or `NOT_FOUND`, and otherwise passes through
unchanged. -/
theorem error_translation (conn : Connection) (args : ManageReportsArgs) (msg : String)
    (h : (runOp conn args).1 = Except.error msg) :
    (handleManageReports conn args).1
      = errText ("Error in report " ++ opName args.operation ++ ": " ++ enhanceError msg)
    ∧ StrContains msg (enhanceError msg)
    ∧ ((strIncludes msg "INSUFFICIENT_ACCESS" || strIncludes msg "INVALID_CROSS_REFERENCE") = true →
        enhanceError msg = "Access error: " ++ msg ++ accessHint)
    ∧ ((strIncludes msg "INSUFFICIENT_ACCESS" || strIncludes msg "INVALID_CROSS_REFERENCE") = false →
        (strIncludes msg "INVALID_ID_FIELD" || strIncludes msg "NOT_FOUND") = true →
        enhanceError msg = "Report not found: " ++ msg ++ notFoundHint)
    ∧ ((strIncludes msg "INSUFFICIENT_ACCESS" || strIncludes msg "INVALID_CROSS_REFERENCE") = false →
        (strIncludes msg "INVALID_ID_FIELD" || strIncludes msg "NOT_FOUND") = false →
        enhanceError msg = msg) := by
  refine ⟨?_, ?_, ?_, ?_, ?_⟩
  · cases hro : runOp conn args with
    | mk r cs =>
      rw [hro] at h
      simp only at h
      subst h
      simp [handleManageReports, hro, catchResponse]
  · by_cases hc1 : (strIncludes msg "INSUFFICIENT_ACCESS" || strIncludes msg "INVALID_CROSS_REFERENCE") = true
    · rw [enhanceError, if_pos hc1]
      exact ⟨"Access error: ", accessHint, rfl⟩
    · by_cases hc2 : (strIncludes msg "INVALID_ID_FIELD" || strIncludes msg "NOT_FOUND") = true
      · rw [enhanceError, if_neg hc1, if_pos hc2]
        exact ⟨"Report not found: ", notFoundHint, rfl⟩
      · rw [enhanceError, if_neg hc1, if_neg hc2]
        refine ⟨"", "", ?_⟩
        rw [String.empty_append, String.append_empty]
  · intro hc1
    rw [enhanceError, if_pos hc1]
  · intro hc1 hc2
    rw [enhanceError, if_neg (by simp [hc1]), if_pos hc2]
  · intro hc1 hc2
    rw [enhanceError, if_neg (by simp [hc1]), if_neg (by simp [hc2])]

/-- Arguments for the C7 witness: a well-formed `describe` request. -/
def c7wArgs : ManageReportsArgs :=
  { operation := Operation.describe, reportId := some "00O000000000001", instanceId := none,
    includeDetails := none, filters := none, queryFilter := none, limit := none }

/-- A collaborator whose `describe` throws a `NOT_FOUND` fault. -/
def connNotFound : Connection :=
  { query := fun _ => Except.error "NOT_FOUND: no such report",
    recentReports := Except.error "NOT_FOUND: no such report",
    describe := fun _ => Except.error "NOT_FOUND: no such report",
    execute := fun _ _ => Except.error "NOT_FOUND: no such report",
    executeAsync := fun _ _ => Except.error "NOT_FOUND: no such report",
    instances := fun _ => Except.error "NOT_FOUND: no such report",
    retrieve := fun _ _ => Except.error "NOT_FOUND: no such report" }

/-- C7 witness: the translation theorem applied to a `describe` call
whose collaborator throws `NOT_FOUND`. -/
theorem error_translation_witness :
    (handleManageReports connNotFound c7wArgs).1
      = errText ("Error in report " ++ opName c7wArgs.operation ++ ": "
          ++ enhanceError "NOT_FOUND: no such report") :=
  (error_translation connNotFound c7wArgs "NOT_FOUND: no such report" rfl).1

/-- Report metadata with name `R` and format `TABULAR`, nothing else. -/
def c8Meta : ReportMetadata :=
  { name := "R", id := "00O000000000001", reportFormat := "TABULAR", reportType := none,
    description := none, detailColumns := none, groupingsDown := none,
    groupingsAcross := none, reportFilters := none }

/-- A result tree carrying report metadata but no fact map at all. -/
def c8Tree : ResultTree :=
  { reportMetadata := some c8Meta, reportExtendedMetadata := none, factMap := none,
    groupingsDown := none, groupingsAcross := none }

/-- C8 counterexample: on a tree with report metadata but no fact map,
the formatter emits the metadata summary before `"No data returned."`,
so its output is not only `"No data returned."`. -/
theorem no_fact_map_not_only_sentinel :
    formatReportResults c8Tree false = "Report: R\nFormat: TABULAR\n\nNo data returned."
    ∧ formatReportResults c8Tree false ≠ "No data returned." := by
  constructor
  · decide
  · decide

/-- C8 (amended): the formatter is a total function; on a tree with no
fact map it emits the metadata summary (when metadata is present)
followed by `"No data returned."` and stops, and when the metadata is
also absent its whole output is exactly `"No data returned."`. -/
theorem no_fact_map_sentinel (t : ResultTree) (inc : Bool) (h : t.factMap = none) :
    formatReportResultsLines t inc = metadataSummaryLines t ++ ["No data returned."]
    ∧ (t.reportMetadata = none → formatReportResults t inc = "No data returned.") := by
  constructor
  · simp [formatReportResultsLines, h]
  · intro hm
    simp only [formatReportResults, formatReportResultsLines, h, metadataSummaryLines, hm,
      List.nil_append]
    rfl

/-- A result tree with neither metadata nor a fact map. -/
def c8wTree : ResultTree :=
  { reportMetadata := none, reportExtendedMetadata := none, factMap := none,
    groupingsDown := none, groupingsAcross := none }

/-- C8 witness: the sentinel theorem applied at the empty tree. -/
theorem no_fact_map_sentinel_witness :
    formatReportResults c8wTree false = "No data returned." :=
  (no_fact_map_sentinel c8wTree false rfl).2 rfl
